import Mathlib

/-!
Verification development for the borrow-incentive intention engine of the
msafe-sui-app-store repository.  The definitions below are a shallow
embedding of `src/apps/cetus/intentions/remove-liquidity.ts` (the
borrow-incentive builder portion) and of the stsui intention codec that its
tests exercise.  JavaScript strings-or-undefined are modelled as
`Option String`, the mutable transaction block as an explicit `TxBlock`
value that is threaded through, thrown `Error`s as `Except`, and the
on-chain queries issued through the Scallop builder as oracle functions
stored in the `Builder` record.
-/

/-- A transaction queued in a transaction block.  `moveCall` carries the
target string, the ordered argument list (each argument is the value passed
to `txBlock.object`, a JS string-or-undefined) and the type arguments.
`other` stands for queued transactions of any non-MoveCall kind
(SplitCoins, TransferObjects, ...), which the batch scans skip over. -/
inductive Txn where
  | moveCall (target : String) (arguments : List (Option String)) (typeArguments : List String)
  | other (kind : String)
deriving DecidableEq

/-- The `txn.kind` field of a queued transaction. -/
def Txn.kindOf : Txn → String
  | .moveCall _ _ _ => "MoveCall"
  | .other k => k

/-- The transaction block: its sender and the ordered list of already
queued transactions (`txBlock.blockData.transactions`). -/
structure TxBlock where
  sender : String
  txns : List Txn
deriving DecidableEq

/-- `txBlock.moveCall` appends exactly one transaction at the end. -/
def appendCall (tx : TxBlock) (t : Txn) : TxBlock :=
  { tx with txns := tx.txns ++ [t] }

/-- Modelled from the spec: `requireSender` (from `../utils`, absent from
src/) returns the sender address of the transaction block. -/
def requireSender (tx : TxBlock) : String :=
  tx.sender

/-- An obligation as returned by the `getObligations` query:
`{ id, keyId, locked }`. -/
structure Obligation where
  id : String
  keyId : String
  locked : Bool
deriving DecidableEq

/-- A veSCA record as returned by the `getVeSca` / `getVeScas` queries
(key id and object id; the remaining numeric fields play no role in the
claims). -/
structure VeSca where
  keyId : String
  id : String
deriving DecidableEq

/-- The record returned by `requireObligationInfo`. -/
structure ObligationInfo where
  obligationId : String
  obligationKey : String
  obligationLocked : Bool
deriving DecidableEq

/-- The errors this code can raise: `NoPositionFound`
("No obligation found for sender ..."), `BindingMismatch`
("Binded veScaKey is not equal to the provided veScaKey") and the
JavaScript `TypeError` raised by a property access on `undefined`. -/
inductive BIErr where
  | noObligationFound (sender : String)
  | bindingMismatch
  | typeError
deriving DecidableEq

/-- A dynamic JSON-like value as it appears in Sui RPC responses.  `undef`
stands for JavaScript `undefined` (and `null`); `str` for strings; `obj`
for move-object field records. -/
inductive Js where
  | undefined
  | str (s : String)
  | obj (fields : List (String × Js))

/-- Optional-chaining property access `v?.k`: `undefined` on a nullish
receiver, the field (or `undefined`) on an object, `undefined` for the
properties we read on a string.  Never throws. -/
def jsOpt (v : Js) (k : String) : Js :=
  match v with
  | .obj fs => (fs.lookup k).getD .undefined
  | _ => .undefined

/-- Plain property access `v.k`: throws `TypeError` when the receiver is
`undefined`, otherwise behaves like `jsOpt`. -/
def jsGet (v : Js) (k : String) : Except BIErr Js :=
  match v with
  | .undefined => .error .typeError
  | .str _ => .ok .undefined
  | .obj fs => .ok ((fs.lookup k).getD .undefined)

/-- A chain of plain property accesses `v.k1.k2...`. -/
def jsPath (v : Js) : List String → Except BIErr Js
  | [] => .ok v
  | k :: ks =>
    match jsGet v k with
    | .error e => .error e
    | .ok w => jsPath w ks

/-- The check `response.data?.content?.dataType !== 'moveObject'`, applied
to the response's `data` value (negated: `true` means the data is a move
object). -/
def isMoveObjectData (d : Js) : Bool :=
  match jsOpt (jsOpt d "content") "dataType" with
  | .str s => s == "moveObject"
  | _ => false

/-- The plain accesses `response.data.content.fields`. -/
def respFields (d : Js) : Except BIErr Js :=
  match jsGet d "content" with
  | .error e => .error e
  | .ok content => jsGet content "fields"

/-- The Scallop builder together with the query layer it reaches.
`address` is `builder.address.get`; the remaining fields are oracle
functions for the on-chain reads issued by this module
(`getObligationLocked`, `getObligations`, `getVeSca`, `getVeScas`,
`getBindedVeScaKey` from `../queries`, `builder.utils.parseCoinType`, and
the raw `client.getObject` / `client.getDynamicFieldObject` calls, each
returning the response's `data` value; the queries module itself is absent
from src/). -/
structure Builder where
  address : String → String
  getObligationLocked : String → Bool
  getObligations : String → List Obligation
  getVeSca : String → Option VeSca
  getVeScas : String → List VeSca
  getBindedVeScaKey : String → Option String
  parseCoinType : String → String
  getObject : String → Js
  getDynamicFieldObject : Js → String → String → Js

/-- `SUI_CLOCK_OBJECT_ID` from `@mysten/sui.js/utils` (the normalized form
of `0x6`). -/
def SUI_CLOCK_OBJECT_ID : String :=
  "0x0000000000000000000000000000000000000000000000000000000000000006"

/-- `SUI_TYPE_ARG` from `@mysten/sui.js/utils`. -/
def SUI_TYPE_ARG : String := "0x2::sui::SUI"

/-- `OldBorrowIncentiveContract.id`, hard-coded in
`generateBorrowIncentiveNormalMethod`. -/
def oldBorrowIncentiveContractId : String :=
  "0xc63072e7f5f4983a2efaf5bdba1480d5e7d74d57948e1c7cc436f8e22cbeb410"

/-- `OldBorrowIncentiveContract.incentivePools`, hard-coded. -/
def oldBorrowIncentivePools : String :=
  "0x64972b713ccec45ec3964809e477cea6f97350c0c50ca3aec85bb631639266ec"

/-- `OldBorrowIncentiveContract.incentiveAccounts`, hard-coded. -/
def oldBorrowIncentiveAccounts : String :=
  "0x3c0b707068bdcea8bb859d751ad3e2149a9f83c13fcf4054ef91372a00bccdd3"

/-- Modelled from the spec: the constant `OLD_BORROW_INCENTIVE_PROTOCOL_ID`
is imported from `../constants`, which is absent from src/.  The spec's
"fixed legacy identifier" and the in-file `OldBorrowIncentiveContract.id`
both denote the legacy borrow-incentive package, so the constant is given
that value. -/
def OLD_BORROW_INCENTIVE_PROTOCOL_ID : String :=
  oldBorrowIncentiveContractId

/-- JavaScript truthiness of a string-or-undefined value: `undefined` and
the empty string are falsy. -/
def truthy : Option String → Bool
  | some s => s != ""
  | none => false

/-- `requireVeSca` (lines 63-84): when a veSCA key is supplied (and
truthy), look it up directly and return `undefined` when the lookup finds
nothing; otherwise enumerate the sender's veSCAs and take the first, or
`undefined` when there are none. -/
def requireVeScaOwned (b : Builder) (tx : TxBlock) : Option VeSca :=
  match b.getVeScas (requireSender tx) with
  | [] => none
  | v :: _ => some v

def requireVeSca (b : Builder) (tx : TxBlock) (veScaKey : Option String) : Option VeSca :=
  match veScaKey with
  | some s =>
    if s != "" then
      match b.getVeSca s with
      | none => none
      | some veSca => some veSca
    else requireVeScaOwned b tx
  | none => requireVeScaOwned b tx

/-- The typed dynamic-field key type built inside `getBindedObligationId`. -/
def keyTypeOf (b : Builder) : String :=
  b.address "borrowIncentive.object" ++ "::typed_id::TypedID<" ++
    b.address "vesca.id" ++ "::ve_sca::VeScaKey>"

/-- `getBindedObligationId` (lines 92-131): fetch the incentive-pools
object, return `false` (here `none`) unless it is a move object, read the
bind-table id through the untyped field chain
`fields.ve_sca_bind.fields.id.id`, query the dynamic field keyed by the
typed wrapper of the veSCA key, return `false` unless that is a move
object, and read the obligation id through `fields.value.fields.id`.  The
untyped chains are plain property accesses and throw `TypeError` when an
intermediate value is `undefined`. -/
def getBindedObligationId (b : Builder) (veScaKey : String) : Except BIErr (Option Js) :=
  let incentivePoolsData := b.getObject (b.address "borrowIncentive.incentivePools")
  if !isMoveObjectData incentivePoolsData then .ok none
  else
    match respFields incentivePoolsData with
    | .error e => .error e
    | .ok incentivePoolFields =>
      match jsPath incentivePoolFields ["ve_sca_bind", "fields", "id", "id"] with
      | .error e => .error e
      | .ok veScaBindTableId =>
        let tableData := b.getDynamicFieldObject veScaBindTableId (keyTypeOf b) veScaKey
        if !isMoveObjectData tableData then .ok none
        else
          match respFields tableData with
          | .error e => .error e
          | .ok veScaBindTableFields =>
            match jsPath veScaBindTableFields ["value", "fields", "id"] with
            | .error e => .error e
            | .ok obligationId => .ok (some obligationId)

/-- The record `{obligationId, obligationKey, obligationLocked}` built from
a selected obligation. -/
def obligationInfoOf (o : Obligation) : ObligationInfo :=
  ⟨o.id, o.keyId, o.locked⟩

/-- The enumerate-and-select branch of `requireObligationInfo`: fetch the
sender's obligations, fail when there are none, otherwise pick the first
obligation matching either supplied identifier and fall back to the first
obligation. -/
def requireObligationOwned (b : Builder) (tx : TxBlock)
    (obligationId obligationKey : Option String) : Except BIErr ObligationInfo :=
  match b.getObligations (requireSender tx) with
  | [] => .error (.noObligationFound (requireSender tx))
  | first :: rest =>
    let selected :=
      ((first :: rest).find?
        (fun o => obligationId == some o.id || obligationKey == some o.keyId)).getD first
    .ok (obligationInfoOf selected)

/-- `requireObligationInfo` (lines 147-169): when both identifiers are
supplied and truthy, trust them and fetch only the lock status; otherwise
enumerate the sender's obligations. -/
def requireObligationInfo (b : Builder) (tx : TxBlock)
    (obligationId obligationKey : Option String) : Except BIErr ObligationInfo :=
  match obligationId, obligationKey with
  | some oid, some okey =>
    if oid != "" && okey != "" then
      .ok ⟨oid, okey, b.getObligationLocked oid⟩
    else requireObligationOwned b tx obligationId obligationKey
  | _, _ => requireObligationOwned b tx obligationId obligationKey

/-- The transaction queued by `stakeObligation` (lines 202-215). -/
def stakeTxn (b : Builder) (obligationId obligationKey : Option String) : Txn :=
  .moveCall (b.address "borrowIncentive.id" ++ "::user::stake")
    [some (b.address "borrowIncentive.config"),
     some (b.address "borrowIncentive.incentivePools"),
     some (b.address "borrowIncentive.incentiveAccounts"),
     obligationKey,
     obligationId,
     some (b.address "core.obligationAccessStore"),
     some SUI_CLOCK_OBJECT_ID]
    []

def stakeObligation (b : Builder) (obligationId obligationKey : Option String)
    (tx : TxBlock) : TxBlock :=
  appendCall tx (stakeTxn b obligationId obligationKey)

/-- The transaction queued by `stakeObligationWithVesca` (lines 216-233). -/
def stakeWithVescaTxn (b : Builder) (obligationId obligationKey veScaKey : Option String) : Txn :=
  .moveCall (b.address "borrowIncentive.id" ++ "::user::stake_with_ve_sca")
    [some (b.address "borrowIncentive.config"),
     some (b.address "borrowIncentive.incentivePools"),
     some (b.address "borrowIncentive.incentiveAccounts"),
     obligationKey,
     obligationId,
     some (b.address "core.obligationAccessStore"),
     some (b.address "vesca.config"),
     some (b.address "vesca.treasury"),
     some (b.address "vesca.table"),
     veScaKey,
     some SUI_CLOCK_OBJECT_ID]
    []

def stakeObligationWithVesca (b : Builder) (obligationId obligationKey veScaKey : Option String)
    (tx : TxBlock) : TxBlock :=
  appendCall tx (stakeWithVescaTxn b obligationId obligationKey veScaKey)

/-- The transaction queued by `unstakeObligation` (lines 234-246). -/
def unstakeTxn (b : Builder) (obligationId obligationKey : Option String) : Txn :=
  .moveCall (b.address "borrowIncentive.id" ++ "::user::unstake")
    [some (b.address "borrowIncentive.config"),
     some (b.address "borrowIncentive.incentivePools"),
     some (b.address "borrowIncentive.incentiveAccounts"),
     obligationKey,
     obligationId,
     some SUI_CLOCK_OBJECT_ID]
    []

def unstakeObligation (b : Builder) (obligationId obligationKey : Option String)
    (tx : TxBlock) : TxBlock :=
  appendCall tx (unstakeTxn b obligationId obligationKey)

/-- The transaction queued by `oldUnstakeObligation` (lines 247-259).  Note
that the source builds the target from the current
`borrowIncentive.id` package while the pool and accounts arguments are the
hard-coded legacy identifiers. -/
def oldUnstakeTxn (b : Builder) (obligationId obligationKey : Option String) : Txn :=
  .moveCall (b.address "borrowIncentive.id" ++ "::user::unstake")
    [some oldBorrowIncentivePools,
     some oldBorrowIncentiveAccounts,
     obligationKey,
     obligationId,
     some SUI_CLOCK_OBJECT_ID]
    [SUI_TYPE_ARG]

def oldUnstakeObligation (b : Builder) (obligationId obligationKey : Option String)
    (tx : TxBlock) : TxBlock :=
  appendCall tx (oldUnstakeTxn b obligationId obligationKey)

/-- The transaction queued by `claimBorrowIncentive` (lines 260-274). -/
def claimTxn (b : Builder) (obligationId obligationKey : Option String)
    (rewardCoinName : String) : Txn :=
  .moveCall (b.address "borrowIncentive.id" ++ "::user::redeem_rewards")
    [some (b.address "borrowIncentive.config"),
     some (b.address "borrowIncentive.incentivePools"),
     some (b.address "borrowIncentive.incentiveAccounts"),
     obligationKey,
     obligationId,
     some SUI_CLOCK_OBJECT_ID]
    [b.parseCoinType rewardCoinName]

def claimBorrowIncentive (b : Builder) (obligationId obligationKey : Option String)
    (rewardCoinName : String) (tx : TxBlock) : TxBlock :=
  appendCall tx (claimTxn b obligationId obligationKey rewardCoinName)

/-- The transaction queued by `oldClaimBorrowIncentive` (lines 275-288). -/
def oldClaimTxn (b : Builder) (obligationId obligationKey : Option String)
    (rewardCoinName : String) : Txn :=
  .moveCall (oldBorrowIncentiveContractId ++ "::user::redeem_rewards")
    [some oldBorrowIncentivePools,
     some oldBorrowIncentiveAccounts,
     obligationKey,
     obligationId,
     some SUI_CLOCK_OBJECT_ID]
    [b.parseCoinType rewardCoinName]

def oldClaimBorrowIncentive (b : Builder) (obligationId obligationKey : Option String)
    (rewardCoinName : String) (tx : TxBlock) : TxBlock :=
  appendCall tx (oldClaimTxn b obligationId obligationKey rewardCoinName)

/-- The predicate of the batch scan in `stakeObligationQuick`
(lines 315-320): a queued transaction of kind `MoveCall` whose target is
`unstake` at the legacy package or at the current `borrowIncentive.id`
package. -/
def isUnstakeScanHit (b : Builder) : Txn → Bool
  | .moveCall target _ _ =>
    target == OLD_BORROW_INCENTIVE_PROTOCOL_ID ++ "::user::unstake" ||
      target == b.address "borrowIncentive.id" ++ "::user::unstake"
  | .other _ => false

/-- `stakeObligationQuick` (lines 308-325): resolve the obligation, scan
the already queued transactions for an unstake call
(`!!transactions.find(...)`, modelled as `List.any`), and stake when the
obligation is unlocked or such an unstake is queued. -/
def stakeObligationQuick (b : Builder) (tx : TxBlock)
    (obligation obligationKey : Option String) : Except BIErr TxBlock :=
  match requireObligationInfo b tx obligation obligationKey with
  | .error e => .error e
  | .ok info =>
    let unstakeObligationBeforeStake := tx.txns.any (isUnstakeScanHit b)
    if !info.obligationLocked || unstakeObligationBeforeStake then
      .ok (stakeObligation b (some info.obligationId) (some info.obligationKey) tx)
    else
      .ok tx

/-- `unstakeObligationQuick` (lines 326-336): resolve the obligation and
unstake only when it is locked. -/
def unstakeObligationQuick (b : Builder) (tx : TxBlock)
    (obligation obligationKey : Option String) : Except BIErr TxBlock :=
  match requireObligationInfo b tx obligation obligationKey with
  | .error e => .error e
  | .ok info =>
    if info.obligationLocked then
      .ok (unstakeObligation b (some info.obligationId) (some info.obligationKey) tx)
    else
      .ok tx

/-- `stakeObligationWithVeScaQuick` (lines 337-365).  The batch scan here
passes an `async` arrow function to `Array.prototype.find`; the callback
therefore returns a Promise, which is truthy for every element, so `find`
returns the first queued transaction whenever the list is non-empty and
the scan degenerates to a non-emptiness test.  When the stake path is
taken, the veSCA binding is resolved and a supplied key that is truthy and
different from the binding raises the mismatch error; otherwise the staking
call uses the bound key when one exists and the plain stake call when
none does. -/
def stakeObligationWithVeScaQuick (b : Builder) (tx : TxBlock)
    (obligation obligationKey veScaKey : Option String) : Except BIErr TxBlock :=
  match requireObligationInfo b tx obligation obligationKey with
  | .error e => .error e
  | .ok info =>
    let unstakeObligationBeforeStake := !tx.txns.isEmpty
    if !info.obligationLocked || unstakeObligationBeforeStake then
      let bindedVeScaKey := b.getBindedVeScaKey info.obligationId
      if truthy veScaKey && veScaKey != bindedVeScaKey then
        .error .bindingMismatch
      else if truthy bindedVeScaKey then
        .ok (stakeObligationWithVesca b (some info.obligationId) (some info.obligationKey)
          bindedVeScaKey tx)
      else
        .ok (stakeObligation b (some info.obligationId) (some info.obligationKey) tx)
    else
      .ok tx

/-- `claimBorrowIncentiveQuick` (lines 366-367): a direct delegation to
`claimBorrowIncentive` with the caller-supplied references. -/
def claimBorrowIncentiveQuick (b : Builder) (tx : TxBlock) (rewardCoinName : String)
    (obligation obligationKey : Option String) : TxBlock :=
  claimBorrowIncentive b obligation obligationKey rewardCoinName tx

/-- Claim C8: the current-generation stake builder, given the resolved
position id `0xP` and key `0xK` and an empty batch, appends exactly one
call with target `<pkg>::user::stake` and arguments in exactly the order
config, incentivePools, incentiveAccounts, key, id, obligationAccessStore,
clock. -/
theorem stakeObligation_call_shape (b : Builder) (sender : String) :
    stakeObligation b (some "0xP") (some "0xK") ⟨sender, []⟩ =
      ⟨sender,
       [Txn.moveCall (b.address "borrowIncentive.id" ++ "::user::stake")
         [some (b.address "borrowIncentive.config"),
          some (b.address "borrowIncentive.incentivePools"),
          some (b.address "borrowIncentive.incentiveAccounts"),
          some "0xK",
          some "0xP",
          some (b.address "core.obligationAccessStore"),
          some SUI_CLOCK_OBJECT_ID]
         []]⟩ :=
  rfl

/-- A concrete address registry used by the concrete scenarios: each key of
section 6 of the spec maps to a distinct identifier. -/
def addr0 : String → String := fun k =>
  if k == "borrowIncentive.id" then "0xB1PKG"
  else if k == "borrowIncentive.object" then "0xB1OBJ"
  else if k == "borrowIncentive.query" then "0xQUERY"
  else if k == "borrowIncentive.config" then "0xCONF"
  else if k == "borrowIncentive.incentivePools" then "0xPOOLS"
  else if k == "borrowIncentive.incentiveAccounts" then "0xACCTS"
  else if k == "core.obligationAccessStore" then "0xSTORE"
  else if k == "vesca.id" then "0xVEPKG"
  else if k == "vesca.table" then "0xVTBL"
  else if k == "vesca.treasury" then "0xVTRE"
  else if k == "vesca.config" then "0xVCONF"
  else "0xNONE"

/-- A concrete builder: unlocked obligations, no owned objects, no veSCA
binding.  The concrete scenarios below override single oracles. -/
def builderBase : Builder :=
  { address := addr0
    getObligationLocked := fun _ => false
    getObligations := fun _ => []
    getVeSca := fun _ => none
    getVeScas := fun _ => []
    getBindedVeScaKey := fun _ => none
    parseCoinType := fun coinName => "0x2::coin::" ++ coinName
    getObject := fun _ => Js.undefined
    getDynamicFieldObject := fun _ _ _ => Js.undefined }

/-- Claim C1: after a successful position resolution, `stakeObligationQuick`
appends exactly one stake call when the position is unlocked or an unstake
call for it is already queued in the batch, and appends nothing when the
position is locked and no unstake call is queued in the batch. -/
theorem stakeObligationQuick_trigger (b : Builder) (tx : TxBlock)
    (obligation obligationKey : Option String) (info : ObligationInfo)
    (h : requireObligationInfo b tx obligation obligationKey = .ok info) :
    ((info.obligationLocked = false ∨
        unstakeTxn b (some info.obligationId) (some info.obligationKey) ∈ tx.txns) →
      stakeObligationQuick b tx obligation obligationKey =
        .ok (appendCall tx (stakeTxn b (some info.obligationId) (some info.obligationKey)))) ∧
    (info.obligationLocked = true → (∀ t ∈ tx.txns, isUnstakeScanHit b t = false) →
      stakeObligationQuick b tx obligation obligationKey = .ok tx) := by
  constructor
  · intro htrig
    have hguard : (!info.obligationLocked || tx.txns.any (isUnstakeScanHit b)) = true := by
      rcases htrig with hl | hm
      · simp [hl]
      · have hhit : isUnstakeScanHit b
            (unstakeTxn b (some info.obligationId) (some info.obligationKey)) = true := by
          simp [isUnstakeScanHit, unstakeTxn]
        have hany : tx.txns.any (isUnstakeScanHit b) = true :=
          List.any_eq_true.mpr ⟨_, hm, hhit⟩
        simp [hany]
    simp [stakeObligationQuick, h, hguard, stakeObligation]
  · intro hlock hnone
    have hany : tx.txns.any (isUnstakeScanHit b) = false := by
      cases hA : tx.txns.any (isUnstakeScanHit b) with
      | false => rfl
      | true =>
        obtain ⟨x, hx, hpx⟩ := List.any_eq_true.mp hA
        exact absurd hpx (by simp [hnone x hx])
    simp [stakeObligationQuick, h, hlock, hany]

theorem stakeObligationQuick_trigger_witness :
    stakeObligationQuick builderBase ⟨"0xSENDER", []⟩ (some "0xP") (some "0xK") =
      .ok (appendCall ⟨"0xSENDER", []⟩ (stakeTxn builderBase (some "0xP") (some "0xK"))) :=
  (stakeObligationQuick_trigger builderBase ⟨"0xSENDER", []⟩ (some "0xP") (some "0xK")
    ⟨"0xP", "0xK", false⟩ rfl).1 (Or.inl rfl)

/-- Claim C2: when the stake path of `stakeObligationWithVeScaQuick` is
triggered (so the binding is actually resolved) and the caller-supplied
veSCA key is truthy and differs from the resolved binding, the operation
fails with the binding-mismatch error and appends no call. -/
theorem stakeObligationWithVeScaQuick_mismatch (b : Builder) (tx : TxBlock)
    (obligation obligationKey : Option String) (s : String) (info : ObligationInfo)
    (h : requireObligationInfo b tx obligation obligationKey = .ok info)
    (hg : (!info.obligationLocked || !tx.txns.isEmpty) = true)
    (hs : s ≠ "")
    (hne : some s ≠ b.getBindedVeScaKey info.obligationId) :
    stakeObligationWithVeScaQuick b tx obligation obligationKey (some s) =
      .error .bindingMismatch := by
  have hs' : (s != "") = true := bne_iff_ne.mpr hs
  have hne' : ((some s : Option String) != b.getBindedVeScaKey info.obligationId) = true :=
    bne_iff_ne.mpr hne
  simp [stakeObligationWithVeScaQuick, h, hg, truthy, hs', hne']

/-- A builder whose veSCA-binding oracle reports a binding. -/
def bBind : Builder :=
  { builderBase with getBindedVeScaKey := fun _ => some "0xBIND" }

theorem stakeObligationWithVeScaQuick_mismatch_witness :
    stakeObligationWithVeScaQuick bBind ⟨"0xSENDER", []⟩ (some "0xA") (some "0xB")
      (some "0xOTHER") = .error .bindingMismatch :=
  stakeObligationWithVeScaQuick_mismatch bBind ⟨"0xSENDER", []⟩ (some "0xA") (some "0xB")
    "0xOTHER" ⟨"0xA", "0xB", false⟩ rfl rfl (by decide) (by decide)

/-- A builder whose obligations are all locked. -/
def bLocked : Builder :=
  { builderBase with getObligationLocked := fun _ => true }

/-- A batch whose single queued call is a claim call, not an unstake. -/
def txWithClaim : TxBlock :=
  ⟨"0xSENDER", [claimTxn bLocked (some "0xX") (some "0xY") "sui"]⟩

/-- Claim C3 is violated by the code: `stakeObligationWithVeScaQuick` hands
an `async` callback to the batch scan, so the scan is truthy for any
non-empty batch.  Here the resolved position is locked and no unstake call
is queued (the only queued call is a claim), yet a stake call is emitted,
while `stakeObligationQuick` under the same trigger condition would emit
nothing. -/
theorem stakeObligationWithVeScaQuick_scan_bug :
    (∀ t ∈ txWithClaim.txns, isUnstakeScanHit bLocked t = false) ∧
    requireObligationInfo bLocked txWithClaim (some "0xA") (some "0xB") =
      .ok ⟨"0xA", "0xB", true⟩ ∧
    stakeObligationWithVeScaQuick bLocked txWithClaim (some "0xA") (some "0xB") none =
      .ok (appendCall txWithClaim (stakeTxn bLocked (some "0xA") (some "0xB"))) :=
  ⟨by decide, rfl, rfl⟩

/-- A builder whose sender owns one obligation. -/
def bOneObl : Builder :=
  { builderBase with getObligations := fun _ => [⟨"0xA", "0xB", false⟩] }

/-- Claim C5 is violated by the code: `claimBorrowIncentiveQuick` never
resolves the position.  Here resolution would yield the sender's obligation
`{0xA, 0xB}`, yet the emitted claim call carries the unresolved
caller-supplied references (`undefined`), not the resolved ones. -/
theorem claimBorrowIncentiveQuick_noResolve_cex :
    requireObligationInfo bOneObl ⟨"0xSENDER", []⟩ none none = .ok ⟨"0xA", "0xB", false⟩ ∧
    claimBorrowIncentiveQuick bOneObl ⟨"0xSENDER", []⟩ "sui" none none =
      appendCall ⟨"0xSENDER", []⟩ (claimTxn bOneObl none none "sui") ∧
    claimTxn bOneObl none none "sui" ≠ claimTxn bOneObl (some "0xA") (some "0xB") "sui" :=
  ⟨rfl, rfl, by decide⟩

/-- Claim C5 as amended: `claimBorrowIncentiveQuick` unconditionally emits
exactly one `redeem_rewards` call built directly from the caller-supplied
obligation references, independent of the position's lock status and
without resolving PositionInfo. -/
theorem claimBorrowIncentiveQuick_forwards (b : Builder) (tx : TxBlock)
    (rewardCoinName : String) (obligation obligationKey : Option String) :
    claimBorrowIncentiveQuick b tx rewardCoinName obligation obligationKey =
      { tx with txns := tx.txns ++
        [Txn.moveCall (b.address "borrowIncentive.id" ++ "::user::redeem_rewards")
          [some (b.address "borrowIncentive.config"),
           some (b.address "borrowIncentive.incentivePools"),
           some (b.address "borrowIncentive.incentiveAccounts"),
           obligationKey, obligation, some SUI_CLOCK_OBJECT_ID]
          [b.parseCoinType rewardCoinName]] } :=
  rfl

/-- Claim C7 is violated by the code: `oldUnstakeObligation` queues a call
whose target is built from the current `borrowIncentive.id` package while
its pool and accounts arguments are the hard-coded legacy identifiers (its
sibling `oldClaimBorrowIncentive` targets the legacy package as intended),
so the call mixes the two generations. -/
theorem oldUnstakeObligation_mixed_generations :
    oldUnstakeObligation builderBase (some "0xA") (some "0xB") ⟨"0xSENDER", []⟩ =
      ⟨"0xSENDER",
       [Txn.moveCall "0xB1PKG::user::unstake"
         [some oldBorrowIncentivePools, some oldBorrowIncentiveAccounts,
          some "0xB", some "0xA", some SUI_CLOCK_OBJECT_ID]
         [SUI_TYPE_ARG]]⟩ ∧
    builderBase.address "borrowIncentive.id" = "0xB1PKG" ∧
    "0xB1PKG" ≠ OLD_BORROW_INCENTIVE_PROTOCOL_ID ∧
    oldClaimBorrowIncentive builderBase (some "0xA") (some "0xB") "sui" ⟨"0xSENDER", []⟩ =
      ⟨"0xSENDER",
       [Txn.moveCall (OLD_BORROW_INCENTIVE_PROTOCOL_ID ++ "::user::redeem_rewards")
         [some oldBorrowIncentivePools, some oldBorrowIncentiveAccounts,
          some "0xB", some "0xA", some SUI_CLOCK_OBJECT_ID]
         ["0x2::coin::sui"]]⟩ :=
  ⟨rfl, rfl, by decide, rfl⟩

/-- Claim C6, part of the helper lemmas: the enumerate branch fails with
the no-obligation error exactly when the sender owns no obligation. -/
theorem requireObligationOwned_error_iff (b : Builder) (tx : TxBlock)
    (oid okey : Option String) :
    (requireObligationOwned b tx oid okey = .error (.noObligationFound tx.sender) ↔
      b.getObligations tx.sender = []) := by
  cases hob : b.getObligations tx.sender <;>
    simp [requireObligationOwned, requireSender, hob]

theorem requireObligationInfo_falsy (b : Builder) (tx : TxBlock)
    (oid okey : Option String) (hfalsy : (truthy oid && truthy okey) = false) :
    requireObligationInfo b tx oid okey = requireObligationOwned b tx oid okey := by
  cases oid with
  | none => cases okey <;> rfl
  | some i =>
    cases okey with
    | none => rfl
    | some k =>
      have hik : (i != "" && k != "") = false := by simpa [truthy] using hfalsy
      simp [requireObligationInfo, hik]

/-- Claim C6: `requireObligationInfo` trusts both identifiers when both are
supplied (fetching only the lock status); otherwise it enumerates the
sender's obligations, fails with the no-obligation error exactly when the
sender owns none, and otherwise selects the obligation matching either
supplied identifier with the first obligation as fallback. -/
theorem requireObligationInfo_resolution (b : Builder) (tx : TxBlock)
    (oid okey : Option String) :
    (∀ i k, oid = some i → okey = some k → i ≠ "" → k ≠ "" →
        requireObligationInfo b tx oid okey = .ok ⟨i, k, b.getObligationLocked i⟩) ∧
    ((truthy oid && truthy okey) = false →
        (requireObligationInfo b tx oid okey = .error (.noObligationFound tx.sender) ↔
          b.getObligations tx.sender = [])) ∧
    (∀ first rest, (truthy oid && truthy okey) = false →
        b.getObligations tx.sender = first :: rest →
        requireObligationInfo b tx oid okey =
          .ok (obligationInfoOf
            (((first :: rest).find?
                (fun o => oid == some o.id || okey == some o.keyId)).getD first))) := by
  refine ⟨?_, ?_, ?_⟩
  · intro i k hi hk hine hkne
    subst hi; subst hk
    have h1 : (i != "") = true := bne_iff_ne.mpr hine
    have h2 : (k != "") = true := bne_iff_ne.mpr hkne
    simp [requireObligationInfo, h1, h2]
  · intro hfalsy
    rw [requireObligationInfo_falsy b tx oid okey hfalsy]
    exact requireObligationOwned_error_iff b tx oid okey
  · intro first rest hfalsy hob
    rw [requireObligationInfo_falsy b tx oid okey hfalsy]
    simp [requireObligationOwned, requireSender, hob]

/-- A builder whose sender owns two obligations. -/
def bObligations : Builder :=
  { builderBase with
      getObligations := fun _ => [⟨"0xA1", "0xB1", false⟩, ⟨"0xA2", "0xB2", true⟩] }

theorem requireObligationInfo_resolution_witness :
    requireObligationInfo builderBase ⟨"0xSENDER", []⟩ (some "0xP") (some "0xK") =
      .ok ⟨"0xP", "0xK", false⟩ ∧
    requireObligationInfo builderBase ⟨"0xSENDER", []⟩ none none =
      .error (.noObligationFound "0xSENDER") ∧
    requireObligationInfo bObligations ⟨"0xSENDER", []⟩ none (some "0xB2") =
      .ok ⟨"0xA2", "0xB2", true⟩ := by
  refine ⟨?_, ?_, ?_⟩
  · exact (requireObligationInfo_resolution builderBase ⟨"0xSENDER", []⟩
      (some "0xP") (some "0xK")).1 "0xP" "0xK" rfl rfl (by decide) (by decide)
  · exact ((requireObligationInfo_resolution builderBase ⟨"0xSENDER", []⟩ none none).2.1
      (by decide)).mpr rfl
  · exact ((requireObligationInfo_resolution bObligations ⟨"0xSENDER", []⟩ none
      (some "0xB2")).2.2 ⟨"0xA1", "0xB1", false⟩ [⟨"0xA2", "0xB2", true⟩]
      (by decide) rfl).trans rfl

/-- Claim C10: when a (truthy) veSCA key is supplied, `requireVeSca` is the
direct lookup of that key — in particular it returns `undefined` when the
lookup finds nothing, with no fallback to enumeration — and when no key is
supplied it returns the first veSCA owned by the sender, or `undefined`
when the sender owns none. -/
theorem requireVeSca_no_fallback (b : Builder) (tx : TxBlock) :
    (∀ s, s ≠ "" → requireVeSca b tx (some s) = b.getVeSca s) ∧
    requireVeSca b tx none = (b.getVeScas tx.sender).head? := by
  constructor
  · intro s hs
    have hs' : (s != "") = true := bne_iff_ne.mpr hs
    cases hv : b.getVeSca s <;> simp [requireVeSca, hs', hv]
  · cases hv : b.getVeScas tx.sender <;>
      simp [requireVeSca, requireVeScaOwned, requireSender, hv]

/-- A builder whose sender owns one veSCA but whose direct lookup oracle
finds none. -/
def bVeSca : Builder :=
  { builderBase with getVeScas := fun _ => [⟨"0xVK2", "0xV2"⟩] }

theorem requireVeSca_no_fallback_witness :
    requireVeSca bVeSca ⟨"0xSENDER", []⟩ (some "0xVKEY") = none ∧
    requireVeSca bVeSca ⟨"0xSENDER", []⟩ none = some ⟨"0xVK2", "0xV2"⟩ := by
  refine ⟨?_, ?_⟩
  · exact ((requireVeSca_no_fallback bVeSca ⟨"0xSENDER", []⟩).1 "0xVKEY" (by decide)).trans rfl
  · exact ((requireVeSca_no_fallback bVeSca ⟨"0xSENDER", []⟩).2).trans rfl

/-- Modelled from the spec: the action kinds of the stsui intention codec
exercised by the repository's tests (the intention classes themselves are
absent from src/). -/
inductive StSuiAction where
  | mint
  | redeem
deriving DecidableEq

/-- Modelled from the spec: the minimal user-supplied fields of an stsui
mint/redeem intent. -/
structure StSuiIntentionData where
  amount : String
deriving DecidableEq

/-- Strip a pattern from the front of a character list. -/
def chopFront : List Char → List Char → Option (List Char)
  | [], rest => some rest
  | _ :: _, [] => none
  | p :: ps, c :: cs => if p = c then chopFront ps cs else none

/-- Strip a pattern from the back of a character list. -/
def chopBack (pat s : List Char) : Option (List Char) :=
  (chopFront pat.reverse s.reverse).map List.reverse

/-- The characters surrounding the amount in the canonical encoding. -/
def stSuiWrapFront : List Char := "\x7b\"amount\":\"".data

def stSuiWrapBack : List Char := "\"\x7d".data

/-- Modelled from the spec: `MintIntention.serialize` /
`RedeemIntention.serialize` (the stsui intention classes are absent from
src/; only their tests appear): the canonical deterministic key-ordered
serialization of the minimal user-supplied fields. -/
def serializeStSui (d : StSuiIntentionData) : String :=
  ⟨stSuiWrapFront ++ (d.amount.data ++ stSuiWrapBack)⟩

/-- Modelled from the spec: the parsing half of the codec (the JSON parse
at the `fromData` boundary, absent from src/), on the canonical
single-field form produced by `serializeStSui`. -/
def parseStSui (s : String) : Option StSuiIntentionData :=
  match chopFront stSuiWrapFront s.data with
  | none => none
  | some rest =>
    match chopBack stSuiWrapBack rest with
    | none => none
    | some amountChars => some ⟨⟨amountChars⟩⟩

/-- Modelled from the spec: the call targets the LST mint/redeem builders
emit and `StSuiHelper.deserialize` recognizes (both absent from src/). -/
def stSuiTarget : StSuiAction → String
  | .mint =>
    "0xd1b72982e40348d069bb1ff701e634c117bb5f741f44dff91e472d3b01461e55::liquid_staking::mint"
  | .redeem =>
    "0xd1b72982e40348d069bb1ff701e634c117bb5f741f44dff91e472d3b01461e55::liquid_staking::redeem"

/-- Modelled from the spec: building a batch from a mint/redeem intent
queues one call whose target identifies the action and whose argument
carries the amount. -/
def buildStSui (a : StSuiAction) (d : StSuiIntentionData) : TxBlock :=
  ⟨"", [Txn.moveCall (stSuiTarget a) [some d.amount] []]⟩

/-- Modelled from the spec: `StSuiHelper.deserialize` (absent from src/)
classifies a built batch by target and shape and extracts the minimal
fields; an unrecognized target yields no intention. -/
def deserializeStSui (tx : TxBlock) : Option (StSuiAction × StSuiIntentionData) :=
  match tx.txns with
  | [Txn.moveCall t [some amt] []] =>
    if t == stSuiTarget .mint then some (.mint, ⟨amt⟩)
    else if t == stSuiTarget .redeem then some (.redeem, ⟨amt⟩)
    else none
  | _ => none

theorem chopFront_append (p r : List Char) : chopFront p (p ++ r) = some r := by
  induction p with
  | nil => rfl
  | cons c cs ih => simp [chopFront, ih]

theorem chopBack_append (pat a : List Char) : chopBack pat (a ++ pat) = some a := by
  simp [chopBack, List.reverse_append, chopFront_append]

theorem parseStSui_serialize (d : StSuiIntentionData) :
    parseStSui (serializeStSui d) = some d := by
  simp [parseStSui, serializeStSui, chopFront_append, chopBack_append]

theorem deserializeStSui_build (a : StSuiAction) (d : StSuiIntentionData) :
    deserializeStSui (buildStSui a d) = some (a, d) := by
  cases a <;> rfl

set_option linter.unusedVariables false in
/-- Claim C4: for every intent of a supported action kind (with a decimal
amount), encoding it, building a batch from the encoding and decoding that
batch recovers the user-supplied minimal fields, and the concrete encoding
of the amount `10000000` is exactly the canonical single-field string.  The
digit hypothesis restricts the statement to the amounts on which the
canonical textual encoding needs no escaping. -/
theorem stSuiCodec_roundTrip (a : StSuiAction) (d : StSuiIntentionData)
    (h : ∀ c ∈ d.amount.data, Char.isDigit c = true) :
    ((parseStSui (serializeStSui d)).bind fun d2 => deserializeStSui (buildStSui a d2)) =
      some (a, d) ∧
    serializeStSui ⟨"10000000"⟩ = "\x7b\"amount\":\"10000000\"\x7d" := by
  refine ⟨?_, rfl⟩
  rw [parseStSui_serialize]
  exact deserializeStSui_build a d

theorem stSuiCodec_roundTrip_witness :
    ((parseStSui (serializeStSui ⟨"10000000"⟩)).bind fun d2 =>
        deserializeStSui (buildStSui .mint d2)) = some (.mint, ⟨"10000000"⟩) ∧
    serializeStSui ⟨"10000000"⟩ = "\x7b\"amount\":\"10000000\"\x7d" :=
  stSuiCodec_roundTrip .mint ⟨"10000000"⟩ (by decide)

/-- A builder whose incentive-pools object is a move object whose fields
lack the expected `ve_sca_bind` structure. -/
def bBadPools : Builder :=
  { builderBase with
      getObject := fun _ =>
        Js.obj [("content", Js.obj [("dataType", Js.str "moveObject"),
          ("fields", Js.obj [])])] }

/-- Claim C9 is violated by the code: on a move-object response whose
fields lack the expected structure, the untyped field chain of
`getBindedObligationId` throws a `TypeError` instead of returning the
None-like result. -/
theorem getBindedObligationId_throws_cex :
    getBindedObligationId bBadPools "0xKEY" = .error .typeError :=
  rfl

/-- Claim C9 as amended: `getBindedObligationId` returns the None-like
result, without throwing, when either response fails the
`dataType === moveObject` check (which covers "object not found"), and
returns the bound obligation id exactly when both lookups return move
objects whose fields have the expected nested structure; when a move
object's fields lack that structure, the access chain throws instead of
returning None. -/
theorem getBindedObligationId_amended (b : Builder) (key : String) :
    (isMoveObjectData (b.getObject (b.address "borrowIncentive.incentivePools")) = false →
        getBindedObligationId b key = .ok none) ∧
    (∀ fields tid,
        isMoveObjectData (b.getObject (b.address "borrowIncentive.incentivePools")) = true →
        respFields (b.getObject (b.address "borrowIncentive.incentivePools")) = .ok fields →
        jsPath fields ["ve_sca_bind", "fields", "id", "id"] = .ok tid →
        isMoveObjectData (b.getDynamicFieldObject tid (keyTypeOf b) key) = false →
        getBindedObligationId b key = .ok none) ∧
    (∀ fields tid fields2 oid,
        isMoveObjectData (b.getObject (b.address "borrowIncentive.incentivePools")) = true →
        respFields (b.getObject (b.address "borrowIncentive.incentivePools")) = .ok fields →
        jsPath fields ["ve_sca_bind", "fields", "id", "id"] = .ok tid →
        isMoveObjectData (b.getDynamicFieldObject tid (keyTypeOf b) key) = true →
        respFields (b.getDynamicFieldObject tid (keyTypeOf b) key) = .ok fields2 →
        jsPath fields2 ["value", "fields", "id"] = .ok oid →
        getBindedObligationId b key = .ok (some oid)) := by
  refine ⟨?_, ?_, ?_⟩
  · intro hmv
    simp [getBindedObligationId, hmv]
  · intro fields tid hmv1 hf hp hmv2
    simp [getBindedObligationId, hmv1, hf, hp, hmv2]
  · intro fields tid fields2 oid hmv1 hf hp hmv2 hf2 hp2
    simp [getBindedObligationId, hmv1, hf, hp, hmv2, hf2, hp2]

/-- A builder whose two lookups both return move objects with the expected
nested field structure. -/
def bGoodBind : Builder :=
  { builderBase with
      getObject := fun _ =>
        Js.obj [("content", Js.obj [("dataType", Js.str "moveObject"),
          ("fields", Js.obj [("ve_sca_bind", Js.obj [("fields",
            Js.obj [("id", Js.obj [("id", Js.str "0xTBL")])])])])])]
      getDynamicFieldObject := fun _ _ _ =>
        Js.obj [("content", Js.obj [("dataType", Js.str "moveObject"),
          ("fields", Js.obj [("value", Js.obj [("fields",
            Js.obj [("id", Js.str "0xOBL")])])])])] }

theorem getBindedObligationId_amended_witness :
    getBindedObligationId bGoodBind "0xKEY" = .ok (some (Js.str "0xOBL")) :=
  (getBindedObligationId_amended bGoodBind "0xKEY").2.2 _ _ _ _ rfl rfl rfl rfl rfl rfl
